import Mathlib

/-!
Verification of the RailNL route-planning engine.

This file embeds the core data model and operations of the repository
(`code/classes/connection.py`, `code/classes/route.py`,
`code/classes/rail_network.py`, `code/algorithms/greedy.py`,
`code/algorithms/hill_climber.py`, `code/algorithms/random_algorithm.py`)
as executable Lean definitions and proves or refutes the specified
properties about them.

Modelling conventions:
* Python `Connection` objects are shared by identity between the network's
  connection list, station adjacency maps and route connection-sets.  We
  identify a connection by its index (`cid`) in the network's connection
  list; the mutable `used` flag lives in the `Connection` record stored in
  that list, and mutating it is re-building the list at that index.
* A Python `set` of connections is a `List ℕ` of indices kept duplicate-free
  by inserting only absent elements (`List.insert`), so its `length` is the
  set's size.
* Machine floats only ever hold ratios and sums of small integers here, so
  quality arithmetic is carried out in `ℚ`.
* Code that can raise (`ZeroDivisionError`, `IndexError`, `KeyError`) is
  embedded with `Option`/`Except`.
* Randomised choices (`random.choice(seq)`) are embedded by threading an
  explicit stream of picks; a pick `k` selects `seq[k % len(seq)]`.
-/

/-- `Connection` from `code/classes/connection.py`: an undirected edge with a
travel time and the global mutable `used` flag. -/
structure Connection where
  station1 : String
  station2 : String
  distance : ℕ
  used : Bool
deriving DecidableEq

instance : Inhabited Connection := ⟨⟨"", "", 0, false⟩⟩

/-- `Connection.get_other_station` from `code/classes/connection.py`. -/
def Connection.get_other_station (c : Connection) (s : String) : String :=
  if s = c.station1 then c.station2 else c.station1

/-- `Route` from `code/classes/route.py`: an ordered station sequence, the
running total time, the set of consumed connections (by index) and the
configured time limit (Python default `180`). -/
structure Route where
  stations : List String
  total_time : ℕ
  connections_used : List ℕ
  time_limit : ℕ
deriving DecidableEq

/-- `Route()` with the Python default `time_limit=180`. -/
def Route.new (time_limit : ℕ := 180) : Route :=
  ⟨[], 0, [], time_limit⟩

/-- `Route.add_connection` from `code/classes/route.py`, translated
line by line.  It returns the success flag together with the updated route;
the returned flag being `true` is exactly the case in which the source also
executes `connection.used = True` (the caller applies that network-side
effect, see `RailNetwork.setUsed`).  Note two properties of the source kept
faithfully here: `total_time` is incremented *before* the adjacency check,
so a non-adjacent failure returns `False` with the time already added; and
in the seeding branch (`if not self.stations`) the connection is *not*
added to `connections_used`, because `self.connections_used.add(connection)`
only runs in the `else` branch. -/
def Route.add_connection (r : Route) (cid : ℕ) (c : Connection) : Bool × Route :=
  if r.total_time + c.distance > r.time_limit then (false, r)
  else
    let r1 : Route := { r with total_time := r.total_time + c.distance }
    if r1.stations.isEmpty then
      (true, { r1 with stations := r1.stations ++ [c.station1, c.station2] })
    else
      let last := r1.stations.getLastD ""
      if last = c.station1 then
        (true, { r1 with stations := r1.stations ++ [c.station2],
                         connections_used := r1.connections_used.insert cid })
      else if last = c.station2 then
        (true, { r1 with stations := r1.stations ++ [c.station1],
                         connections_used := r1.connections_used.insert cid })
      else (false, r1)

/-- `RailNetwork` from `code/classes/rail_network.py`.  `stationNames` is the
insertion order of the `stations` dict (CSV load order); adjacency is derived
from the connection list exactly as `load_connections` builds it. -/
structure RailNetwork where
  stationNames : List String
  conns : List Connection
  routes : List Route
deriving DecidableEq

/-- The effect `connection.used = True` on the shared connection object,
performed on the network's connection list at the connection's index. -/
def RailNetwork.setUsed (net : RailNetwork) (cid : ℕ) : RailNetwork :=
  { net with conns := net.conns.set cid { net.conns.getD cid default with used := true } }

/-- The effect `connection.used = False` (used by the hill climber and the
reset loops). -/
def RailNetwork.clearUsed (net : RailNetwork) (cid : ℕ) : RailNetwork :=
  { net with conns := net.conns.set cid { net.conns.getD cid default with used := false } }

/-- Python dict assignment `d[k] = v` on an association list: an existing key
keeps its position and gets the new value, a new key is appended. -/
def dictInsert (l : List (String × ℕ)) (k : String) (v : ℕ) : List (String × ℕ) :=
  if l.any (fun p => p.1 = k) then l.map (fun p => if p.1 = k then (k, v) else p)
  else l ++ [(k, v)]

/-- `station.connections` for the station named `s`: `load_connections` walks
the connection list in order and does
`self.stations[endpoint].add_connection(connection)` for both endpoints,
which stores `destination -> connection` in the station's dict. -/
def RailNetwork.adjacency (net : RailNetwork) (s : String) : List (String × ℕ) :=
  (net.conns.enum).foldl
    (fun acc p =>
      if p.2.station1 = s ∨ p.2.station2 = s then
        dictInsert acc (p.2.get_other_station s) p.1
      else acc)
    []

/-- `len(station.connections)`: the station's degree. -/
def RailNetwork.degree (net : RailNetwork) (s : String) : ℕ :=
  (net.adjacency s).length

/-- `RailNetwork.calculate_quality` from `code/classes/rail_network.py`.
The source computes `p = used_connections / total_connections` with no
guard, so a network with zero connections raises `ZeroDivisionError`;
that fallible division is embedded as `Option`, `none` being the raised
exception. -/
def RailNetwork.calculate_quality (net : RailNetwork) : Option ℚ :=
  let total_connections := net.conns.length
  let used_connections := (net.conns.filter (fun c => c.used)).length
  if total_connections = 0 then none
  else
    let p : ℚ := (used_connections : ℚ) / (total_connections : ℚ)
    let T : ℚ := (net.routes.length : ℚ)
    let Min : ℚ := (((net.routes.map (fun r => r.total_time)).sum : ℕ) : ℚ)
    some (p * 10000 - (T * 100 + Min))

/-! ## Quality formula (claims C1, C2, C5) -/

/-- Helper: closed form of `calculate_quality` on a network with at least
one connection. -/
theorem calculate_quality_closed_form (net : RailNetwork) (h : net.conns ≠ []) :
    net.calculate_quality =
      some ((((net.conns.filter (fun c => c.used)).length : ℚ) / (net.conns.length : ℚ)) * 10000
        - ((net.routes.length : ℚ) * 100
            + (((net.routes.map (fun r => r.total_time)).sum : ℕ) : ℚ))) := by
  unfold RailNetwork.calculate_quality
  rw [if_neg (by simpa using h)]

/-- Spec-side definition (§4.1, §9), written from the spec's words for
comparison with the code: the set of `unique_edges_used` as the union of
each route's own connection-set. -/
def routesUnionSpec (net : RailNetwork) : Finset ℕ :=
  net.routes.foldr (fun r acc => r.connections_used.toFinset ∪ acc) ∅

/-- Spec-side definition (§4.1): `unique_edges_used` is the size of that
union. -/
def uniqueEdgesUsedSpec (net : RailNetwork) : ℕ :=
  (routesUnionSpec net).card

/-- C1: for every network with at least one connection, `calculate_quality`
returns `K = p * 10000 - (T * 100 + Min)`, where `p` is the fraction of the
network's connections whose `used` flag is set, `T` is the number of routes
in the network's route list and `Min` is the sum of `total_time` over those
routes.  (The spec's concrete instance — two edges of weight 30 and 40, one
route using the weight-30 edge, quality 4870 — is the witness below.) -/
theorem C1_calculate_quality_formula (net : RailNetwork) (h : net.conns ≠ []) :
    net.calculate_quality =
      some ((((net.conns.filter (fun c => c.used)).length : ℚ) / (net.conns.length : ℚ)) * 10000
        - ((net.routes.length : ℚ) * 100
            + (((net.routes.map (fun r => r.total_time)).sum : ℕ) : ℚ))) :=
  calculate_quality_closed_form net h

def c1Net0 : RailNetwork := ⟨["A", "B", "C"], [⟨"A", "B", 30, false⟩, ⟨"B", "C", 40, false⟩], []⟩

/-- The route of the spec's quality scenario, built by the embedded
`add_connection` itself (as the repo's `test_calculate_quality` does),
including the network-side `connection.used = True` effect. -/
def c1Step : Bool × Route := (Route.new).add_connection 0 ⟨"A", "B", 30, false⟩

def c1Net : RailNetwork :=
  { (if c1Step.1 then c1Net0.setUsed 0 else c1Net0) with routes := [c1Step.2] }

/-- Witness for C1: the spec's concrete scenario (2 edges of weights 30 and
40, one route using the weight-30 edge) has quality
`0.5 * 10000 - (1 * 100 + 30) = 4870`. -/
theorem C1_witness : c1Net.conns ≠ [] ∧ c1Net.calculate_quality = some 4870 := by
  refine ⟨by decide, ?_⟩
  rw [C1_calculate_quality_formula c1Net (by decide)]
  have h1 : (c1Net.conns.filter (fun c => c.used)).length = 1 := rfl
  have h2 : c1Net.conns.length = 2 := rfl
  have h3 : c1Net.routes.length = 1 := rfl
  have h4 : (c1Net.routes.map (fun r => r.total_time)).sum = 30 := rfl
  rw [h1, h2, h3, h4]
  norm_num

/-- A single-connection network whose one route was seeded from that
connection by `add_connection`: the connection's `used` flag is set, but the
route's own connection-set stayed empty (the seeding branch never records
the connection). -/
def c2Step : Bool × Route := (Route.new).add_connection 0 ⟨"A", "B", 30, false⟩

def c2Net0 : RailNetwork := ⟨["A", "B"], [⟨"A", "B", 30, false⟩], []⟩

def c2Net : RailNetwork :=
  { (if c2Step.1 then c2Net0.setUsed 0 else c2Net0) with routes := [c2Step.2] }

/-- C2 counterexample: on `c2Net`, `calculate_quality` (which reads the
mutable per-edge `used` flags) does not equal the union-based formula the
claim asserts: the flags give `p = 1` (quality 9870) while the union of the
routes' connection-sets is empty (the claimed formula gives −130). -/
theorem C2_counterexample :
    c2Net.calculate_quality ≠
      some (((uniqueEdgesUsedSpec c2Net : ℚ) / (c2Net.conns.length : ℚ)) * 10000
        - ((c2Net.routes.length : ℚ) * 100
            + (((c2Net.routes.map (fun r => r.total_time)).sum : ℕ) : ℚ))) := by
  rw [calculate_quality_closed_form c2Net (by decide)]
  have h1 : (c2Net.conns.filter (fun c => c.used)).length = 1 := rfl
  have h2 : c2Net.conns.length = 1 := rfl
  have h3 : c2Net.routes.length = 1 := rfl
  have h4 : (c2Net.routes.map (fun r => r.total_time)).sum = 30 := rfl
  have h5 : uniqueEdgesUsedSpec c2Net = 0 := rfl
  rw [h1, h2, h3, h4, h5]
  norm_num

/-- Index/element counting bridge: the number of list elements with the
`used` flag equals the number of indices whose element has the flag. -/
theorem filter_used_length_eq_range (l : List Connection) :
    (l.filter (fun c => c.used)).length
      = ((List.range l.length).filter (fun i => (l.getD i default).used)).length := by
  induction l with
  | nil => rfl
  | cons c t ih =>
      simp only [List.length_cons, List.range_succ_eq_map, List.filter_cons,
        List.filter_map, List.length_map]
      cases hc : c.used <;>
        simp [hc, List.getD_cons_zero, List.getD_cons_succ, ih, Function.comp_def]

/-- Cardinality of a filtered `Finset.range` as a filtered `List.range`
length. -/
theorem card_filter_range (n : ℕ) (p : ℕ → Bool) :
    ((Finset.range n).filter (fun i => p i = true)).card
      = ((List.range n).filter p).length := by
  simp [Finset.filter, Finset.range, Multiset.range, Finset.card]

/-- C2 amended: `calculate_quality` computes `p` from the mutable per-edge
`used` flags (not from the union of the routes' connection-sets); it agrees
with the union-based formula precisely on networks where the flags coincide
with that union — i.e. a connection's flag is set exactly when its index
lies in the union, and the union only holds valid indices. -/
theorem C2_amended_flags_match_union (net : RailNetwork) (h : net.conns ≠ [])
    (hmatch : ∀ i, i < net.conns.length →
      ((net.conns.getD i default).used = true ↔ i ∈ routesUnionSpec net))
    (hrange : ∀ i ∈ routesUnionSpec net, i < net.conns.length) :
    net.calculate_quality =
      some (((uniqueEdgesUsedSpec net : ℚ) / (net.conns.length : ℚ)) * 10000
        - ((net.routes.length : ℚ) * 100
            + (((net.routes.map (fun r => r.total_time)).sum : ℕ) : ℚ))) := by
  have hS : routesUnionSpec net
      = (Finset.range net.conns.length).filter
          (fun i => (net.conns.getD i default).used = true) := by
    ext i
    simp only [Finset.mem_filter, Finset.mem_range]
    constructor
    · intro hi
      exact ⟨hrange i hi, (hmatch i (hrange i hi)).2 hi⟩
    · rintro ⟨h1, h2⟩
      exact (hmatch i h1).1 h2
  have hcard : (net.conns.filter (fun c => c.used)).length = uniqueEdgesUsedSpec net := by
    rw [uniqueEdgesUsedSpec, hS, card_filter_range, ← filter_used_length_eq_range]
  rw [calculate_quality_closed_form net h, hcard]

def c2WitRoute : Route := ⟨["A", "B"], 30, [0], 180⟩

def c2WitNet : RailNetwork :=
  ⟨["A", "B", "C"], [⟨"A", "B", 30, true⟩, ⟨"B", "C", 40, false⟩], [c2WitRoute]⟩

/-- Witness for the amended C2: a network whose flags coincide with the
union of the routes' connection-sets, on which the flag-based quality and
the union-based formula agree (both 4870). -/
theorem C2_witness :
    c2WitNet.conns ≠ [] ∧
    (∀ i, i < c2WitNet.conns.length →
      ((c2WitNet.conns.getD i default).used = true ↔ i ∈ routesUnionSpec c2WitNet)) ∧
    (∀ i ∈ routesUnionSpec c2WitNet, i < c2WitNet.conns.length) ∧
    c2WitNet.calculate_quality = some 4870 := by
  refine ⟨by decide, by decide, by decide, ?_⟩
  rw [C2_amended_flags_match_union c2WitNet (by decide) (by decide) (by decide)]
  have h1 : uniqueEdgesUsedSpec c2WitNet = 1 := rfl
  have h2 : c2WitNet.conns.length = 2 := rfl
  have h3 : c2WitNet.routes.length = 1 := rfl
  have h4 : (c2WitNet.routes.map (fun r => r.total_time)).sum = 30 := rfl
  rw [h1, h2, h3, h4]
  norm_num

/-! ## Failure and success behaviour of `Route.add_connection` (claims C3, C4) -/

def c3Route : Route := ⟨["A", "B"], 30, [0], 120⟩

/-- C3 (code bug): extending the route A–B (30 minutes so far, limit 120)
with the non-adjacent connection C–D (weight 20) returns `False`, as the
claim says, but does *not* leave the route unmutated: `total_time` has
already been incremented to 50 when the adjacency check fails. -/
theorem C3_nonadjacent_failure_mutates :
    (c3Route.add_connection 1 ⟨"C", "D", 20, false⟩).1 = false ∧
    (c3Route.add_connection 1 ⟨"C", "D", 20, false⟩).2.total_time = 50 ∧
    c3Route.total_time = 30 ∧
    (c3Route.add_connection 1 ⟨"C", "D", 20, false⟩).2.stations = c3Route.stations ∧
    (c3Route.add_connection 1 ⟨"C", "D", 20, false⟩).2.connections_used
      = c3Route.connections_used := by
  decide

/-- C4 (code bug): the very first (seeding) extension of an empty route with
the connection Amsterdam–Rotterdam (40) succeeds, seeds both endpoints and
adds the weight to `total_time`, but does *not* record the connection in the
route's consumed-connection set — `connections_used` stays empty,
contradicting the repository's own test `test_add_connection_success`
(`assert len(sample_route.connections_used) == 1`). -/
theorem C4_seed_connection_not_recorded :
    ((Route.new 120).add_connection 0 ⟨"Amsterdam", "Rotterdam", 40, false⟩).1 = true ∧
    ((Route.new 120).add_connection 0 ⟨"Amsterdam", "Rotterdam", 40, false⟩).2.stations
      = ["Amsterdam", "Rotterdam"] ∧
    ((Route.new 120).add_connection 0 ⟨"Amsterdam", "Rotterdam", 40, false⟩).2.total_time = 40 ∧
    ((Route.new 120).add_connection 0 ⟨"Amsterdam", "Rotterdam", 40, false⟩).2.connections_used
      = [] := by
  decide

/-- A degenerate network with stations and one (empty) route but zero
connections. -/
def c5Net : RailNetwork := ⟨["A", "B"], [], [Route.new]⟩

/-- C5 counterexample: on a network with an empty connection list,
`calculate_quality` does not return 0 — it raises `ZeroDivisionError`
(embedded as `none`), because the source divides by `total_connections`
without any guard. -/
theorem C5_counterexample :
    c5Net.calculate_quality ≠ some 0 ∧ c5Net.calculate_quality = none := by
  constructor
  · intro hcontra
    simp [RailNetwork.calculate_quality, c5Net] at hcontra
  · rfl

/-- C5 amended: for every network whose connection list is empty,
`calculate_quality` raises a division-by-zero fault (returns no value); the
guard returning 0 is absent from the code. -/
theorem C5_amended_zero_edges_raise (net : RailNetwork) (h : net.conns = []) :
    net.calculate_quality = none := by
  unfold RailNetwork.calculate_quality
  simp [h]

/-- Witness for the amended C5 at a concrete empty-connection network. -/
theorem C5_witness :
    (⟨["A"], [], []⟩ : RailNetwork).conns = [] ∧
    (⟨["A"], [], []⟩ : RailNetwork).calculate_quality = none :=
  ⟨rfl, C5_amended_zero_edges_raise ⟨["A"], [], []⟩ rfl⟩

/-! ## Greedy seed ordering (claim C6) -/

/-- One insertion step of a stable descending sort by key.  Python's
`list.sort(key=..., reverse=True)` is a stable sort whose output places `a`
before `b` iff `key a > key b`, or the keys tie and `a` came first; a stable
insertion sort computes exactly that output. -/
def insertByDesc (key : String → ℕ) (a : String) : List String → List String
  | [] => [a]
  | b :: l => if key a < key b then b :: insertByDesc key a l else a :: b :: l

/-- Stable descending sort by key (see `insertByDesc`). -/
def sortByDesc (key : String → ℕ) : List String → List String
  | [] => []
  | a :: l => insertByDesc key a (sortByDesc key l)

/-- `Greedy.get_most_connections` from `code/algorithms/greedy.py`:
`stations = list(self.network.stations.values())` (dict insertion order)
then `stations.sort(key=lambda station: len(station.connections),
reverse=True)` — the stations sorted by degree in descending order. -/
def get_most_connections (net : RailNetwork) : List String :=
  sortByDesc net.degree net.stationNames

theorem mem_insertByDesc (key : String → ℕ) (a x : String) (l : List String) :
    x ∈ insertByDesc key a l ↔ x = a ∨ x ∈ l := by
  induction l with
  | nil => simp [insertByDesc]
  | cons b t ih =>
      by_cases hb : key a < key b
      · simp only [insertByDesc, if_pos hb, List.mem_cons, ih]
        tauto
      · simp only [insertByDesc, if_neg hb, List.mem_cons]

theorem pairwise_insertByDesc (key : String → ℕ) (a : String) (l : List String)
    (h : l.Pairwise (fun x y => key y ≤ key x)) :
    (insertByDesc key a l).Pairwise (fun x y => key y ≤ key x) := by
  induction l with
  | nil => simp [insertByDesc]
  | cons b t ih =>
      rcases List.pairwise_cons.1 h with ⟨hb, ht⟩
      by_cases hab : key a < key b
      · rw [insertByDesc, if_pos hab]
        refine List.pairwise_cons.2 ⟨?_, ih ht⟩
        intro y hy
        rcases (mem_insertByDesc key a y t).1 hy with rfl | hyt
        · exact le_of_lt hab
        · exact hb y hyt
      · rw [insertByDesc, if_neg hab]
        refine List.pairwise_cons.2 ⟨?_, h⟩
        intro y hy
        rcases List.mem_cons.1 hy with rfl | hyt
        · exact le_of_not_lt hab
        · exact le_trans (hb y hyt) (le_of_not_lt hab)

theorem pairwise_sortByDesc (key : String → ℕ) (l : List String) :
    (sortByDesc key l).Pairwise (fun x y => key y ≤ key x) := by
  induction l with
  | nil => exact List.Pairwise.nil
  | cons a t ih => exact pairwise_insertByDesc key a (sortByDesc key t) ih

def c6Net : RailNetwork :=
  ⟨["A", "B", "C"], [⟨"A", "B", 20, false⟩, ⟨"B", "C", 30, false⟩], []⟩

/-- C6 counterexample: on a network with edges A–B and B–C (degrees
A = 1, B = 2, C = 1), the greedy seed order is ["B", "A", "C"] — ranked by
*descending* degree — so the first seed's degree is not ≤ the second's,
refuting the ascending (fewest-connections-first) claim. -/
theorem C6_counterexample :
    get_most_connections c6Net = ["B", "A", "C"] ∧
    ¬ (c6Net.degree ((get_most_connections c6Net).getD 0 "")
        ≤ c6Net.degree ((get_most_connections c6Net).getD 1 "")) := by
  decide

/-- C6 amended: the Greedy constructor ranks all stations by *descending*
degree (most connections first): the (i+1)-th seed station's degree is ≤
the i-th's, for every network and every index. -/
theorem C6_amended_descending_seed_order (net : RailNetwork) (i : ℕ)
    (h : i + 1 < (get_most_connections net).length) :
    net.degree ((get_most_connections net).getD (i + 1) "")
      ≤ net.degree ((get_most_connections net).getD i "") := by
  have hp := pairwise_sortByDesc net.degree net.stationNames
  have hi : i < (get_most_connections net).length := Nat.lt_of_succ_lt h
  rw [List.getD_eq_getElem _ _ h, List.getD_eq_getElem _ _ hi]
  exact List.pairwise_iff_getElem.1 hp i (i + 1) hi h (Nat.lt_succ_self i)

/-- Witness for the amended C6 at `c6Net`, index 0: the second seed's
degree (1) is ≤ the first's (2). -/
theorem C6_witness :
    0 + 1 < (get_most_connections c6Net).length ∧
    c6Net.degree ((get_most_connections c6Net).getD (0 + 1) "")
      ≤ c6Net.degree ((get_most_connections c6Net).getD 0 "") :=
  ⟨by decide, C6_amended_descending_seed_order c6Net 0 (by decide)⟩

/-! ## Random route construction (claim C7) -/

/-- Loop of `RandomAlgorithm.create_route` from
`code/algorithms/random_algorithm.py`.  `picks` is the stream of
`random.choice` results (pick `k` selects element `k % len`), consumed one
per iteration that reaches the choice; `fuel` bounds the `while True` loop.
Returns the built route, the network with the flags the loop set, and the
unconsumed picks.  (A `stations` dict lookup for a name that is absent
would raise `KeyError` in Python; the loop below is only ever entered with
names present in the dict, for which the derived adjacency is the faithful
reading.) -/
def randCreateRouteLoop (timeLimit : ℕ) :
    ℕ → RailNetwork → Route → String → List ℕ → Route × RailNetwork × List ℕ
  | 0, net, route, _, picks => (route, net, picks)
  | fuel + 1, net, route, cur, picks =>
      let possible := (net.adjacency cur).filter
        (fun p => (!(net.conns.getD p.2 default).used)
          && decide (route.total_time + (net.conns.getD p.2 default).distance ≤ timeLimit))
      if possible.isEmpty then (route, net, picks)
      else
        let chosen := possible.getD ((picks.headD 0) % possible.length) ("", 0)
        let c := net.conns.getD chosen.2 default
        let res := route.add_connection chosen.2 c
        if res.1 then
          let cur' := c.get_other_station cur
          randCreateRouteLoop timeLimit fuel (net.setUsed chosen.2)
            { res.2 with stations := res.2.stations ++ [cur'] } cur' picks.tail
        else (res.2, net, picks.tail)

/-- `RandomAlgorithm.create_route(start_station, time_limit=120)`: seeds
`route.stations = [start_station]` and runs the loop. -/
def rand_create_route (net : RailNetwork) (start : String) (timeLimit : ℕ)
    (picks : List ℕ) (fuel : ℕ) : Route × RailNetwork × List ℕ :=
  randCreateRouteLoop timeLimit fuel net { Route.new with stations := [start] } start picks

def c7Net : RailNetwork := ⟨["A", "B"], [⟨"A", "B", 30, false⟩], []⟩

/-- C7 (code bug): `RandomAlgorithm.create_route` on the single-edge network
A–B (30), started at A, returns the station sequence ["A", "B", "B"]:
station B is appended twice — once by `add_connection` and once more by
`create_route` itself (`route.stations.append(current_station)`) — so the
produced route is not a duplicate-free simple path. -/
theorem C7_rand_create_route_duplicates :
    (rand_create_route c7Net "A" 120 [0] 2).1.stations = ["A", "B", "B"] ∧
    ¬ (rand_create_route c7Net "A" 120 [0] 2).1.stations.Nodup := by
  decide

/-! ## Greedy single-route construction and the hill climber (claims C8, C10) -/

/-- The inner `for _, conn in station.connections.items()` scan of
`Greedy.create_route` from `code/algorithms/greedy.py`: find the first
adjacency entry that is unused, fits the time budget and leads to an
unvisited station, and try `route.add_connection` on it.  The route is
threaded through failed `add_connection` attempts because the source keeps
their `total_time` mutation (see `Route.add_connection`); a success returns
the new current station and the chosen connection id (the `break`). -/
def greedyScan (net : RailNetwork) (maxTime : ℕ) (visited : List String) (cur : String) :
    List (String × ℕ) → Route → Option (String × ℕ) × Route
  | [], route => (none, route)
  | p :: rest, route =>
      let c := net.conns.getD p.2 default
      if (!c.used) && decide (route.total_time + c.distance ≤ maxTime) then
        let other := c.get_other_station cur
        if other ∈ visited then greedyScan net maxTime visited cur rest route
        else
          let res := route.add_connection p.2 c
          if res.1 then (some (other, p.2), res.2)
          else greedyScan net maxTime visited cur rest res.2
      else greedyScan net maxTime visited cur rest route

/-- The `while True` loop of `Greedy.create_route`: mark the current station
visited, scan its adjacency; the `for`'s `else: break` ends the loop when the
scan found nothing.  `fuel` bounds the loop. -/
def greedyCreateRouteLoop (maxTime : ℕ) :
    ℕ → RailNetwork → Route → List String → String → Route × RailNetwork
  | 0, net, route, _, _ => (route, net)
  | fuel + 1, net, route, visited, cur =>
      let visited' := visited.insert cur
      match greedyScan net maxTime visited' cur (net.adjacency cur) route with
      | (none, route') => (route', net)
      | (some st, route') =>
          greedyCreateRouteLoop maxTime fuel (net.setUsed st.2) route' visited' st.1

/-- `Greedy.create_route(start_station)` from `code/algorithms/greedy.py`,
starting from an empty `Route()` (Python default limit 180) while filtering
candidate edges against `max_time`.

Modelled from the spec: `hill_climber.py` instantiates
`GreedyAlgorithm(network, time_limit=...)` and calls its `create_route`, but
no class named `GreedyAlgorithm` exists anywhere under the sources (only the
class `Greedy`); spec §4.6 directs the rebuild at "the Greedy Constructor's
single-route routine" of §4.3, which is this routine, with the passed time
limit as its `max_time` budget. -/
def greedy_create_route (net : RailNetwork) (start : String) (maxTime fuel : ℕ) :
    Route × RailNetwork :=
  greedyCreateRouteLoop maxTime fuel net Route.new [] start

/-- `HillClimber.modify_route` from `code/algorithms/hill_climber.py`:
choose one of three modification options (`random.choice([1, 2, 3])`,
embedded as `optPick % 3` selecting from `[1, 2, 3]`), derive the start
station (raising `IndexError` on an empty station list, as
`route.stations[0]` / `random.choice` do), look the station up in the
network's dict (`KeyError` if absent) and rebuild a route from it with the
greedy single-route routine.  This is the start-station selection (the
`optie` dispatch). -/
def modifyRouteStart (route : Route) (optPick statPick : ℕ) : Except String String :=
  let optie := [1, 2, 3].getD (optPick % 3) 0
  if optie = 1 then
    if route.stations.length > 2 then
      .ok (route.stations.getD (route.stations.length - 2) "")
    else
      match route.stations.head? with
      | some s => .ok s
      | none => .error "IndexError"
  else if optie = 2 then
    if route.stations.length > 2 then
      let cand := route.stations.dropLast
      .ok (cand.getD (statPick % cand.length) "")
    else
      match route.stations.head? with
      | some s => .ok s
      | none => .error "IndexError"
  else
    if route.stations.isEmpty then .error "IndexError"
    else .ok (route.stations.getD (statPick % route.stations.length) "")

/-- `HillClimber.modify_route`, continued: look the chosen start station up
in the network's dict (`KeyError` if absent), rebuild a route from it with
the greedy single-route routine, and substitute `[start_station]` if the
rebuilt route has no stations. -/
def modify_route (net : RailNetwork) (route : Route) (maxTime : ℕ)
    (optPick statPick fuel : ℕ) : Except String (Route × RailNetwork) :=
  match modifyRouteStart route optPick statPick with
  | .error e => .error e
  | .ok start =>
      if start ∈ net.stationNames then
        let res := greedy_create_route net start maxTime fuel
        let new_route :=
          if res.1.stations.isEmpty then { res.1 with stations := [start] } else res.1
        .ok (new_route, res.2)
      else .error "KeyError"

/-- `for conn in route.connections_used: conn.used = False` (set iteration
order does not affect the resulting flags). -/
def clearAll (net : RailNetwork) : List ℕ → RailNetwork
  | [] => net
  | cid :: rest => clearAll (net.clearUsed cid) rest

/-- `for conn in route.connections_used: conn.used = True`. -/
def setAll (net : RailNetwork) : List ℕ → RailNetwork
  | [] => net
  | cid :: rest => setAll (net.setUsed cid) rest

/-- The mutable state of `HillClimber.find_best_solution`: the shared
network, `current_routes`, `best_quality` and `best_routes`. -/
structure HCState where
  net : RailNetwork
  current_routes : List Route
  best_quality : ℚ
  best_routes : List Route
deriving DecidableEq

/-- One iteration (the `try` block body) of
`HillClimber.find_best_solution` from `code/algorithms/hill_climber.py`:
pick a route, free its connections, build a candidate with `modify_route`,
substitute it, recompute quality, and either accept (update best, keep the
candidate) or reject (put the old route back and re-mark its connections).
`self.current_routes.index(old_route)` finds the picked object by identity,
i.e. the picked position; `copy_routes` (deepcopy) is the identity on our
value representation. -/
def hillBody (s : HCState) (routePick optPick statPick maxTime fuel : ℕ) :
    Except String HCState :=
  if s.current_routes.isEmpty then .error "IndexError"
  else
    let idx := routePick % s.current_routes.length
    let old_route := s.current_routes.getD idx Route.new
    let net1 := clearAll s.net old_route.connections_used
    match modify_route net1 old_route maxTime optPick statPick fuel with
    | .error e => .error e
    | .ok res =>
        let current1 := s.current_routes.set idx res.1
        match res.2.calculate_quality with
        | none => .error "ZeroDivisionError"
        | some new_quality =>
            if s.best_quality < new_quality then
              .ok ⟨res.2, current1, new_quality, current1⟩
            else
              .ok ⟨setAll res.2 old_route.connections_used,
                   current1.set idx old_route, s.best_quality, s.best_routes⟩

/-- The `while i < iterations` loop of `find_best_solution` with its
`try/except Exception: break`: an iteration whose body raises stops the
loop, keeping the state reached so far; `stream i` supplies the iteration's
random picks (route, option, station). -/
def hillLoop (maxTime fuel : ℕ) (stream : ℕ → ℕ × ℕ × ℕ) :
    ℕ → ℕ → HCState → HCState
  | _, 0, s => s
  | i, n + 1, s =>
      match hillBody s (stream i).1 (stream i).2.1 (stream i).2.2 maxTime fuel with
      | .error _ => s
      | .ok s' => hillLoop maxTime fuel stream (i + 1) n s'

/-- The reset prologue shared by the algorithms:
`for conn in connections: conn.used = False` and `routes.clear()`. -/
def resetNetwork (net : RailNetwork) : RailNetwork :=
  { net with conns := net.conns.map (fun c => { c with used := false }), routes := [] }

/-- `HillClimber.find_best_solution` from `code/algorithms/hill_climber.py`:
reset the network, return `(0, [])` on empty `current_routes`, compute the
initial `best_quality` (this `calculate_quality` call is *outside* the
`try`, so a zero-connection network raises out of the method), run the
caught loop, and return the best pair found. -/
def hill_find_best_solution (net : RailNetwork) (current_routes : List Route)
    (maxTime fuel : ℕ) (stream : ℕ → ℕ × ℕ × ℕ) (iterations : ℕ) :
    Except String (ℚ × List Route) :=
  let net0 := resetNetwork net
  if current_routes.isEmpty then .ok (0, [])
  else
    match net0.calculate_quality with
    | none => .error "ZeroDivisionError"
    | some q0 =>
        let sf := hillLoop maxTime fuel stream 0 iterations ⟨net0, current_routes, q0, current_routes⟩
        .ok (sf.best_quality, sf.best_routes)

/-- The `used` flag of connection `i` in a network. -/
def RailNetwork.usedFlag (net : RailNetwork) (i : ℕ) : Bool :=
  (net.conns.getD i default).used

theorem getD_set_self (l : List Connection) (i : ℕ) (a d : Connection)
    (h : i < l.length) : (l.set i a).getD i d = a := by
  induction l generalizing i with
  | nil => simp at h
  | cons b t ih =>
      cases i with
      | zero => rfl
      | succ j => exact ih j (Nat.lt_of_succ_lt_succ h)

theorem getD_set_ne (l : List Connection) (i j : ℕ) (a d : Connection)
    (h : i ≠ j) : (l.set i a).getD j d = l.getD j d := by
  induction l generalizing i j with
  | nil => rfl
  | cons b t ih =>
      cases i with
      | zero =>
          cases j with
          | zero => exact absurd rfl h
          | succ j' => rfl
      | succ i' =>
          cases j with
          | zero => rfl
          | succ j' => exact ih i' j' (fun hc => h (by rw [hc]))

theorem set_getD_self (l : List Route) (i : ℕ) (d : Route) (h : i < l.length) :
    l.set i (l.getD i d) = l := by
  induction l generalizing i with
  | nil => rfl
  | cons b t ih =>
      cases i with
      | zero => rfl
      | succ j => simpa using ih j (Nat.lt_of_succ_lt_succ h)

theorem setUsed_conns_length (net : RailNetwork) (cid : ℕ) :
    (net.setUsed cid).conns.length = net.conns.length := by
  simp [RailNetwork.setUsed]

theorem clearUsed_conns_length (net : RailNetwork) (cid : ℕ) :
    (net.clearUsed cid).conns.length = net.conns.length := by
  simp [RailNetwork.clearUsed]

theorem setUsed_flag_mono (net : RailNetwork) (cid i : ℕ)
    (h : net.usedFlag i = true) : (net.setUsed cid).usedFlag i = true := by
  unfold RailNetwork.usedFlag at h ⊢
  unfold RailNetwork.setUsed
  by_cases hij : cid = i
  · subst hij
    by_cases hlt : cid < net.conns.length
    · rw [getD_set_self _ _ _ _ hlt]
    · rw [List.set_eq_of_length_le (Nat.le_of_not_lt hlt)]
      exact h
  · rw [getD_set_ne _ _ _ _ _ hij]
    exact h

theorem setUsed_flag_self (net : RailNetwork) (cid : ℕ) (h : cid < net.conns.length) :
    (net.setUsed cid).usedFlag cid = true := by
  unfold RailNetwork.usedFlag RailNetwork.setUsed
  rw [getD_set_self _ _ _ _ h]

theorem clearUsed_flag_ne (net : RailNetwork) (cid i : ℕ) (h : cid ≠ i) :
    (net.clearUsed cid).usedFlag i = net.usedFlag i := by
  unfold RailNetwork.usedFlag RailNetwork.clearUsed
  rw [getD_set_ne _ _ _ _ _ h]

theorem clearAll_conns_length (lst : List ℕ) (net : RailNetwork) :
    (clearAll net lst).conns.length = net.conns.length := by
  induction lst generalizing net with
  | nil => rfl
  | cons c rest ih => rw [clearAll, ih, clearUsed_conns_length]

theorem setAll_conns_length (lst : List ℕ) (net : RailNetwork) :
    (setAll net lst).conns.length = net.conns.length := by
  induction lst generalizing net with
  | nil => rfl
  | cons c rest ih => rw [setAll, ih, setUsed_conns_length]

theorem clearAll_flag_not_mem (lst : List ℕ) (net : RailNetwork) (i : ℕ)
    (h : i ∉ lst) : (clearAll net lst).usedFlag i = net.usedFlag i := by
  induction lst generalizing net with
  | nil => rfl
  | cons c rest ih =>
      rw [clearAll, ih _ (fun hc => h (List.mem_cons_of_mem c hc)),
        clearUsed_flag_ne _ _ _
          (fun hc => h (by rw [← hc]; exact List.mem_cons_self c rest))]

theorem setAll_flag_mono (lst : List ℕ) (net : RailNetwork) (i : ℕ)
    (h : net.usedFlag i = true) : (setAll net lst).usedFlag i = true := by
  induction lst generalizing net with
  | nil => exact h
  | cons c rest ih => exact ih _ (setUsed_flag_mono net c i h)

theorem setAll_flag_mem (lst : List ℕ) (net : RailNetwork) (i : ℕ)
    (hmem : i ∈ lst) (hlt : i < net.conns.length) :
    (setAll net lst).usedFlag i = true := by
  induction lst generalizing net with
  | nil => simp at hmem
  | cons c rest ih =>
      rcases List.mem_cons.1 hmem with rfl | hrest
      · exact setAll_flag_mono rest _ i
          (setUsed_flag_self net i hlt)
      · exact ih _ hrest (by rw [setUsed_conns_length]; exact hlt)

theorem greedyLoop_conns_length (maxTime : ℕ) (fuel : ℕ) :
    ∀ (net : RailNetwork) (route : Route) (visited : List String) (cur : String),
    (greedyCreateRouteLoop maxTime fuel net route visited cur).2.conns.length
      = net.conns.length := by
  induction fuel with
  | zero => intro net route visited cur; rfl
  | succ n ih =>
      intro net route visited cur
      rcases hscan : greedyScan net maxTime (visited.insert cur) cur (net.adjacency cur) route
        with ⟨st?, route'⟩
      rw [greedyCreateRouteLoop, hscan]
      cases st? with
      | none => rfl
      | some st => rw [ih, setUsed_conns_length]

theorem greedyLoop_flag_mono (maxTime : ℕ) (fuel : ℕ) :
    ∀ (net : RailNetwork) (route : Route) (visited : List String) (cur : String) (i : ℕ),
    net.usedFlag i = true →
    (greedyCreateRouteLoop maxTime fuel net route visited cur).2.usedFlag i = true := by
  induction fuel with
  | zero => intro net route visited cur i h; exact h
  | succ n ih =>
      intro net route visited cur i h
      rcases hscan : greedyScan net maxTime (visited.insert cur) cur (net.adjacency cur) route
        with ⟨st?, route'⟩
      rw [greedyCreateRouteLoop, hscan]
      cases st? with
      | none => exact h
      | some st => exact ih _ _ _ _ _ (setUsed_flag_mono net st.2 i h)

theorem modify_route_ok_inv (net : RailNetwork) (route : Route)
    (maxTime op sp fuel : ℕ) (res : Route × RailNetwork)
    (h : modify_route net route maxTime op sp fuel = .ok res) :
    ∃ start, res.2 = (greedy_create_route net start maxTime fuel).2 := by
  cases hs : modifyRouteStart route op sp with
  | error e =>
      simp only [modify_route, hs] at h
      exact (Except.noConfusion h)
  | ok start =>
      by_cases hmem : start ∈ net.stationNames
      · simp only [modify_route, hs, if_pos hmem] at h
        refine ⟨start, ?_⟩
        injection h with h'
        rw [← h']
      · simp only [modify_route, hs, if_neg hmem] at h
        exact (Except.noConfusion h)

theorem modify_route_conns_length (net : RailNetwork) (route : Route)
    (maxTime op sp fuel : ℕ) (res : Route × RailNetwork)
    (h : modify_route net route maxTime op sp fuel = .ok res) :
    res.2.conns.length = net.conns.length := by
  rcases modify_route_ok_inv net route maxTime op sp fuel res h with ⟨start, hres⟩
  rw [hres]
  exact greedyLoop_conns_length maxTime fuel net Route.new [] start

theorem modify_route_flag_mono (net : RailNetwork) (route : Route)
    (maxTime op sp fuel : ℕ) (res : Route × RailNetwork)
    (h : modify_route net route maxTime op sp fuel = .ok res) (i : ℕ)
    (hflag : net.usedFlag i = true) : res.2.usedFlag i = true := by
  rcases modify_route_ok_inv net route maxTime op sp fuel res h with ⟨start, hres⟩
  rw [hres]
  exact greedyLoop_flag_mono maxTime fuel net Route.new [] start i hflag

/-- C8 amended: in a hill-climbing iteration whose candidate is rejected
(the quality did not improve, so `best_quality` is unchanged), the previous
route is put back in `current_routes` (and `best_routes` is untouched), and
every connection marked used before the iteration is still marked used after
it — but the usage state is *not* restored exactly: flags set while building
the rejected candidate may survive (see the counterexample). -/
theorem C8_amended_reject_keeps_routes_grows_flags (s : HCState)
    (rp op sp mt fl : ℕ) (s' : HCState)
    (hok : hillBody s rp op sp mt fl = .ok s')
    (hrej : s'.best_quality = s.best_quality)
    (hrange : ∀ cid ∈ (s.current_routes.getD (rp % s.current_routes.length)
        Route.new).connections_used, cid < s.net.conns.length) :
    s'.current_routes = s.current_routes ∧
    s'.best_routes = s.best_routes ∧
    (∀ i, s.net.usedFlag i = true → s'.net.usedFlag i = true) := by
  cases hemp : s.current_routes.isEmpty with
  | true =>
      simp only [hillBody, hemp, if_true] at hok
      exact (Except.noConfusion hok)
  | false =>
      simp only [hillBody, hemp, Bool.false_eq_true, if_false] at hok
      have hne : s.current_routes ≠ [] := by
        intro hnil
        rw [hnil] at hemp
        simp at hemp
      have hlen : 0 < s.current_routes.length := List.length_pos.2 hne
      have hidx : rp % s.current_routes.length < s.current_routes.length :=
        Nat.mod_lt _ hlen
      split at hok
      · exact (Except.noConfusion hok)
      · rename_i res hmod
        split at hok
        · exact (Except.noConfusion hok)
        · rename_i q hq
          split at hok
          · -- accepted: best_quality strictly increased, contradicting hrej
            rename_i hlt
            injection hok with h'
            rw [← h'] at hrej
            rw [show (⟨res.2, s.current_routes.set (rp % s.current_routes.length) res.1,
                q, s.current_routes.set (rp % s.current_routes.length) res.1⟩ :
                HCState).best_quality = q from rfl] at hrej
            rw [hrej] at hlt
            exact absurd hlt (lt_irrefl _)
          · -- rejected
            injection hok with h'
            rw [← h']
            refine ⟨?_, rfl, ?_⟩
            · show (s.current_routes.set (rp % s.current_routes.length) res.1).set
                  (rp % s.current_routes.length)
                  (s.current_routes.getD (rp % s.current_routes.length) Route.new)
                = s.current_routes
              rw [List.set_set]
              exact set_getD_self _ _ _ hidx
            · intro i hflag
              show (setAll res.2 (s.current_routes.getD (rp % s.current_routes.length)
                  Route.new).connections_used).usedFlag i = true
              by_cases hmemi : i ∈ (s.current_routes.getD (rp % s.current_routes.length)
                  Route.new).connections_used
              · refine setAll_flag_mem _ _ _ hmemi ?_
                rw [modify_route_conns_length _ _ _ _ _ _ _ hmod, clearAll_conns_length]
                exact hrange i hmemi
              · refine setAll_flag_mono _ _ _ ?_
                refine modify_route_flag_mono _ _ _ _ _ _ _ hmod i ?_
                rw [clearAll_flag_not_mem _ _ _ hmemi]
                exact hflag

/-- A network mid-search: the route C–D–E covers connections 1 (C–D) and
2 (D–E); connection 0 (D–F, weight 100) is unused. -/
def c8Route : Route := ⟨["C", "D", "E"], 60, [1, 2], 180⟩

def c8Net : RailNetwork :=
  ⟨["C", "D", "E", "F"],
   [⟨"D", "F", 100, false⟩, ⟨"C", "D", 30, true⟩, ⟨"D", "E", 30, true⟩], []⟩

/-- Hill-climber state with `best_quality = (2/3) * 10000` (two of three
flags set, no routes on the network — `find_best_solution` never populates
`network.routes`). -/
def c8State : HCState := ⟨c8Net, [c8Route], 20000 / 3, [c8Route]⟩

/-- The network after the candidate build inside the iteration: the old
route's connections were freed and the rebuilt route D–F marked
connection 0. -/
def c8NetAfter : RailNetwork :=
  ⟨["C", "D", "E", "F"],
   [⟨"D", "F", 100, true⟩, ⟨"C", "D", 30, false⟩, ⟨"D", "E", 30, false⟩], []⟩

/-- The state the rejected iteration leaves behind: the old route and
best pair are back, but connection 0's flag — set while building the
rejected candidate — is still on. -/
def c8Result : HCState :=
  ⟨⟨["C", "D", "E", "F"],
    [⟨"D", "F", 100, true⟩, ⟨"C", "D", 30, true⟩, ⟨"D", "E", 30, true⟩], []⟩,
   [c8Route], 20000 / 3, [c8Route]⟩

/-- Helper: full evaluation of one hill-climbing iteration on `c8State`
(route pick 0, option 1 — truncate to the second-to-last station D — and
rebuild): the candidate covers only connection 0, quality drops from
20000/3 to 10000/3, and the iteration rejects. -/
theorem c8_body_eval : hillBody c8State 0 0 0 120 10 = .ok c8Result := by
  have hq : (c8NetAfter.calculate_quality).getD 0 = 10000 / 3 := by
    rw [calculate_quality_closed_form c8NetAfter (by decide)]
    have e1 : (c8NetAfter.conns.filter (fun c => c.used)).length = 1 := rfl
    have e2 : c8NetAfter.conns.length = 3 := rfl
    have e3 : c8NetAfter.routes.length = 0 := rfl
    have e4 : (c8NetAfter.routes.map (fun r => r.total_time)).sum = 0 := rfl
    rw [Option.getD_some, e1, e2, e3, e4]
    norm_num
  have hkey : hillBody c8State 0 0 0 120 10
      = (if (20000 / 3 : ℚ) < (c8NetAfter.calculate_quality).getD 0
         then .ok ⟨c8NetAfter, [⟨["D", "F"], 100, [], 180⟩],
                   (c8NetAfter.calculate_quality).getD 0, [⟨["D", "F"], 100, [], 180⟩]⟩
         else .ok c8Result) := rfl
  rw [hkey, hq]
  rw [if_neg (by norm_num)]

/-- C8 counterexample: the iteration above is rejected (`best_quality`
unchanged) and puts the previous route back, yet the network's edge-usage
state is *not* restored to its pre-iteration value: connection 0 was unused
before the iteration and is still marked used after it (the rejected
candidate's mark is never cleared — only the old route's connections are
re-marked). -/
theorem C8_counterexample :
    hillBody c8State 0 0 0 120 10 = .ok c8Result ∧
    c8Result.best_quality = c8State.best_quality ∧
    c8Result.current_routes = c8State.current_routes ∧
    c8Result.net.usedFlag 0 = true ∧
    c8State.net.usedFlag 0 = false :=
  ⟨c8_body_eval, rfl, rfl, rfl, rfl⟩

/-- Witness for the amended C8 at the concrete rejected iteration: the
routes are restored and connection 1's pre-iteration mark survives. -/
theorem C8_witness :
    c8Result.current_routes = c8State.current_routes ∧
    c8Result.best_routes = c8State.best_routes ∧
    c8Result.net.usedFlag 1 = true := by
  have h := C8_amended_reject_keeps_routes_grows_flags c8State 0 0 0 120 10 c8Result
    c8_body_eval rfl (by decide)
  exact ⟨h.1, h.2.1, h.2.2 1 (by decide)⟩

/-- C10: `find_best_solution` never propagates an exception from its search
loop.  First conjunct: on any network with at least one connection (so the
pre-loop `calculate_quality` outside the `try` succeeds) the method returns
a best `(quality, routes)` pair for *every* pick stream and iteration
budget — whatever errors the loop body hits are caught.  Second conjunct:
an iteration whose body raises breaks out of the loop immediately, leaving
the state — and hence the returned best pair — exactly as it was before
that iteration. -/
theorem C10_find_best_catches_errors (net : RailNetwork) (cur : List Route)
    (mt fl : ℕ) (stream : ℕ → ℕ × ℕ × ℕ) (n : ℕ) (h : net.conns ≠ []) :
    (∃ q routes, hill_find_best_solution net cur mt fl stream n = .ok (q, routes)) ∧
    (∀ i m (s : HCState) e,
      hillBody s (stream i).1 (stream i).2.1 (stream i).2.2 mt fl = .error e →
      hillLoop mt fl stream i (m + 1) s = s) := by
  constructor
  · cases hemp : cur.isEmpty with
    | true =>
        refine ⟨0, [], ?_⟩
        simp only [hill_find_best_solution, hemp, if_true]
    | false =>
        have hne : (resetNetwork net).conns ≠ [] := by
          simp only [resetNetwork]
          intro hnil
          exact h (List.map_eq_nil_iff.1 hnil)
        simp only [hill_find_best_solution, hemp, Bool.false_eq_true, if_false,
          calculate_quality_closed_form _ hne]
        exact ⟨_, _, rfl⟩
  · intro i m s e he
    simp only [hillLoop, he]

def c10Net : RailNetwork := ⟨["A", "B"], [⟨"A", "B", 30, false⟩], []⟩

def c10Stream : ℕ → ℕ × ℕ × ℕ := fun _ => (0, 0, 0)

/-- A loop state whose next iteration raises: the only current route has an
empty station list, so `modify_route`'s `route.stations[0]` raises
`IndexError`. -/
def c10S : HCState := ⟨c10Net, [Route.new], 0, [Route.new]⟩

/-- Witness for C10: on `c10Net` with a stationless current route,
`find_best_solution` still returns a pair for a 5-iteration budget, and the
loop, whose very first body call raises `IndexError`, stops with the state
untouched. -/
theorem C10_witness :
    (∃ q routes,
      hill_find_best_solution c10Net [Route.new] 120 5 c10Stream 5 = .ok (q, routes)) ∧
    hillLoop 120 5 c10Stream 0 5 c10S = c10S := by
  have h := C10_find_best_catches_errors c10Net [Route.new] 120 5 c10Stream 5 (by decide)
  exact ⟨h.1, h.2 0 4 c10S "IndexError" rfl⟩

/-! ## Determinism of the randomised search (claim C9) -/

/-- `unused_stations` inside `RandomAlgorithm.create_solution`
(`code/algorithms/random_algorithm.py`): the stations, in dict order, that
still have an unused incident connection. -/
def unused_stations (net : RailNetwork) : List String :=
  net.stationNames.filter
    (fun s => (net.adjacency s).any (fun p => !(net.conns.getD p.2 default).used))

/-- The Python copy in `find_best_solution`:
`best_routes = [Route() for _ in routes]` (default limit 180) with
`stations`, `total_time` and `connections_used` copied over. -/
def copyRoutesShallow (routes : List Route) : List Route :=
  routes.map (fun r => ⟨r.stations, r.total_time, r.connections_used, 180⟩)

/-- The `while routes_created < max_routes` loop of
`RandomAlgorithm.create_solution`: pick a start among the stations with
unused connections, build a random route, keep it (marking its connections
once more and appending it to the network's route list) only if its
connection-set is non-empty.  `fuel` bounds the while loop, `innerFuel` the
inner route loop; `picks` is the shared `random.choice` stream. -/
def createSolutionLoop (maxRoutes innerFuel : ℕ) :
    ℕ → RailNetwork → ℕ → List ℕ → RailNetwork × List ℕ
  | 0, net, _, picks => (net, picks)
  | fuel + 1, net, created, picks =>
      if created < maxRoutes then
        let unused := unused_stations net
        if unused.isEmpty then (net, picks)
        else
          let start := unused.getD ((picks.headD 0) % unused.length) ""
          let res := rand_create_route net start 120 picks.tail innerFuel
          if res.1.connections_used.isEmpty then
            createSolutionLoop maxRoutes innerFuel fuel res.2.1 created res.2.2
          else
            let net2 := setAll res.2.1 res.1.connections_used
            createSolutionLoop maxRoutes innerFuel fuel
              { net2 with routes := net2.routes ++ [res.1] } (created + 1) res.2.2
      else (net, picks)

/-- `RandomAlgorithm.create_solution`: reset all flags and routes, run the
loop, return the resulting quality (`none` is a raised
`ZeroDivisionError`), the mutated network and the unconsumed picks. -/
def create_solution (net : RailNetwork) (picks : List ℕ)
    (maxRoutes fuel innerFuel : ℕ) : Option ℚ × RailNetwork × List ℕ :=
  let res := createSolutionLoop maxRoutes innerFuel fuel (resetNetwork net) 0 picks
  (res.1.calculate_quality, res.1, res.2)

/-- `best_quality > float('-inf')` bookkeeping: `none` stands for the
initial `-inf`, which every quality beats. -/
def bestBeats (best : Option ℚ) (q : ℚ) : Bool :=
  match best with
  | none => true
  | some b => decide (b < q)

/-- The `for i in range(iterations)` loop of
`RandomAlgorithm.find_best_solution`: run `create_solution` each round on
the shared network (a raised `ZeroDivisionError` propagates — this loop has
no handler), keep the best quality and a copy of the routes. -/
def randFindBestLoop (maxRoutes fuel innerFuel : ℕ) :
    ℕ → RailNetwork → List ℕ → Option ℚ → List Route →
    Except String (Option ℚ × List Route)
  | 0, _, _, best, broutes => .ok (best, broutes)
  | n + 1, net, picks, best, broutes =>
      let res := create_solution net picks maxRoutes fuel innerFuel
      match res.1 with
      | none => .error "ZeroDivisionError"
      | some q =>
          if bestBeats best q then
            randFindBestLoop maxRoutes fuel innerFuel n res.2.1 res.2.2 (some q)
              (copyRoutesShallow res.2.1.routes)
          else
            randFindBestLoop maxRoutes fuel innerFuel n res.2.1 res.2.2 best broutes

/-- `RandomAlgorithm.find_best_solution`. -/
def rand_find_best_solution (net : RailNetwork) (picks : List ℕ)
    (iterations maxRoutes fuel innerFuel : ℕ) :
    Except String (Option ℚ × List Route) :=
  randFindBestLoop maxRoutes fuel innerFuel iterations net picks none []

/-- C9: fixed seed + fixed network + fixed algorithm give identical
Solutions.  Every randomised choice in the two algorithms is a
`random.choice` call on the (seedable) generator, embedded as the explicit
pick stream `picks`/`stream`; with the same stream, both
`RandomAlgorithm.find_best_solution` and `HillClimber.find_best_solution`
are functions of the network's persistent structure only: any two networks
that agree after the reset prologue (same stations and connections — the
mutable flags and leftover routes of a previous run are wiped) produce
identical (quality, routes) results. -/
theorem C9_fixed_seed_deterministic (net1 net2 : RailNetwork)
    (picks : List ℕ) (cur : List Route)
    (iterations maxRoutes fuel innerFuel mt : ℕ) (stream : ℕ → ℕ × ℕ × ℕ)
    (h : resetNetwork net1 = resetNetwork net2) :
    rand_find_best_solution net1 picks iterations maxRoutes fuel innerFuel
      = rand_find_best_solution net2 picks iterations maxRoutes fuel innerFuel ∧
    hill_find_best_solution net1 cur mt fuel stream iterations
      = hill_find_best_solution net2 cur mt fuel stream iterations := by
  constructor
  · cases iterations with
    | zero => rfl
    | succ n =>
        have hcs : create_solution net1 picks maxRoutes fuel innerFuel
            = create_solution net2 picks maxRoutes fuel innerFuel := by
          unfold create_solution
          rw [h]
        unfold rand_find_best_solution
        simp only [randFindBestLoop, hcs]
  · unfold hill_find_best_solution
    rw [h]

def c9NetA : RailNetwork :=
  ⟨["A", "B", "C"], [⟨"A", "B", 30, true⟩, ⟨"B", "C", 40, false⟩],
   [⟨["A", "B"], 30, [0], 120⟩]⟩

def c9NetB : RailNetwork :=
  ⟨["A", "B", "C"], [⟨"A", "B", 30, false⟩, ⟨"B", "C", 40, true⟩], []⟩

/-- Witness for C9: two copies of the same network carrying different
leftover mutable state (different flags, one with a stale route list) agree
after reset and therefore produce identical results for the same seed
stream. -/
theorem C9_witness :
    resetNetwork c9NetA = resetNetwork c9NetB ∧
    rand_find_best_solution c9NetA [0, 1, 0, 1] 3 7 5 5
      = rand_find_best_solution c9NetB [0, 1, 0, 1] 3 7 5 5 ∧
    hill_find_best_solution c9NetA [⟨["A", "B"], 30, [0], 120⟩] 120 5
        (fun _ => (0, 0, 0)) 3
      = hill_find_best_solution c9NetB [⟨["A", "B"], 30, [0], 120⟩] 120 5
        (fun _ => (0, 0, 0)) 3 := by
  have h := C9_fixed_seed_deterministic c9NetA c9NetB [0, 1, 0, 1]
    [⟨["A", "B"], 30, [0], 120⟩] 3 7 5 5 120 (fun _ => (0, 0, 0)) (by decide)
  exact ⟨by decide, h.1, h.2⟩
